import Mathlib

/-!
Verification of the privilege-separation and session-management subsystem of
`twisted/conch/unix.py` (and the claims that concern it), via a shallow
embedding of the relevant code into Lean.

The embedding models:
* `UnixConchUser._runAsUser` as a state-passing function over a process
  identity state (effective uid, effective gid, supplementary groups) plus an
  abstract world on which the batched operations act;
* `SSHSessionForUnixConchUser.openShell` / `.closed` / `.addUTMPEntry` over a
  session record and a world of externally observable state (device ownership,
  child process, login-accounting slot, ...);
* `UnixSFTPFile.__init__`'s open-flag decoding and attribute handling;
* `SFTPServerForUnixConchUser._absPath` together with the `posixpath`
  `join` / `normpath` / `abspath` routines it calls;
* `SSHSessionForUnixConchUser.setModes` (the terminal-mode translator), with
  the external `ttymodes.TTYMODES` table and the `tty` module's attribute
  constants kept abstract as an environment.
-/

/-- Target identity of a `UnixConchUser`: uid and gid as returned by
`getUserGroupId`, and the supplementary-group list returned by
`getOtherGroups`. -/
structure Identity where
  uid : Nat
  gid : Nat
  otherGroups : List Nat
deriving DecidableEq, Repr

/-- One identity-manipulating syscall, recorded in order of execution so that
the exact syscall sequence performed by `_runAsUser` can be stated. -/
inductive IdCall where
  | setegid (g : Nat)
  | seteuid (u : Nat)
  | setgroups (gs : List Nat)
deriving DecidableEq, Repr

/-- Process-wide state seen by `_runAsUser`: the effective uid, effective gid
and supplementary-group list (`os.geteuid` / `os.getegid` / `os.getgroups`),
the trace of identity syscalls made so far, and an abstract world `W` on which
the batched operations act. -/
structure SysState (W : Type) where
  euid : Nat
  egid : Nat
  groups : List Nat
  calls : List IdCall
  world : W
deriving DecidableEq, Repr

/-- Model of `os.setegid`: set the effective gid and record the call. -/
def doSetegid {W : Type} (g : Nat) (s : SysState W) : SysState W :=
  { s with egid := g, calls := s.calls ++ [IdCall.setegid g] }

/-- Model of `os.seteuid`: set the effective uid and record the call. -/
def doSeteuid {W : Type} (u : Nat) (s : SysState W) : SysState W :=
  { s with euid := u, calls := s.calls ++ [IdCall.seteuid u] }

/-- Model of `os.setgroups`: set the supplementary-group list and record the
call. -/
def doSetgroups {W : Type} (gs : List Nat) (s : SysState W) : SysState W :=
  { s with groups := gs, calls := s.calls ++ [IdCall.setgroups gs] }

/-- One operation of a `_runAsUser` batch: a Python callable applied to its
arguments.  It transforms the world and either returns a value or raises; a
callable may mutate the world and then raise, so the new world is produced in
both cases. -/
def Op (W R : Type) : Type := W → W × Except String R

/-- The `for i in f:` loop body of `_runAsUser`: run the operations in order,
keeping the result `r` of the last successful one; on the first raise, stop
(remaining operations never execute) and report the exception.  `acc = none`
models the local variable `r` not yet being bound. -/
def runBatch {W R : Type} : List (Op W R) → W → Option R → W × Except String (Option R)
  | [], w, acc => (w, Except.ok acc)
  | op :: rest, w, _acc =>
    let p := op w
    match p.2 with
    | Except.ok r => runBatch rest p.1 (some r)
    | Except.error e => (p.1, Except.error e)

/-- Outcome of `_runAsUser` as seen by its caller: either the re-raised
exception of a failed operation, or the `UnboundLocalError` raised by
`return r` when the batch was empty. -/
inductive RunError where
  | opError (e : String)
  | unboundLocal
deriving DecidableEq, Repr

/-- Shallow embedding of `UnixConchUser._runAsUser` (unix.py lines 113-139):
save the current effective uid/gid and supplementary groups, switch to the
target identity (`setegid 0`, `seteuid 0`, `setgroups other`, `setegid gid`,
`seteuid uid`), run the batch inside `try:`, and in the `finally:` block
restore (`setegid 0`, `seteuid 0`, `setgroups saved`, `setegid savedEgid`,
`seteuid savedEuid`); then `return r`. -/
def runAsUser {W R : Type} (ident : Identity) (ops : List (Op W R)) (s : SysState W) :
    SysState W × Except RunError R :=
  let euid := s.euid
  let egid := s.egid
  let groups := s.groups
  let s1 := doSeteuid ident.uid (doSetegid ident.gid
    (doSetgroups ident.otherGroups (doSeteuid 0 (doSetegid 0 s))))
  let body := runBatch ops s1.world none
  let s2 := { s1 with world := body.1 }
  let s3 := doSeteuid euid (doSetegid egid
    (doSetgroups groups (doSeteuid 0 (doSetegid 0 s2))))
  (s3,
    match body.2 with
    | Except.error e => Except.error (RunError.opError e)
    | Except.ok none => Except.error RunError.unboundLocal
    | Except.ok (some r) => Except.ok r)

/-- The identity syscalls `_runAsUser` performs around a batch, in order:
the switch-in phase of lines 118-122 followed by the cleanup phase of the
`finally:` block (lines 134-138), expressed in terms of the target identity
and the saved pre-call values. -/
def runAsUserCalls (ident : Identity) (euid egid : Nat) (groups : List Nat) : List IdCall :=
  [IdCall.setegid 0, IdCall.seteuid 0, IdCall.setgroups ident.otherGroups,
   IdCall.setegid ident.gid, IdCall.seteuid ident.uid,
   IdCall.setegid 0, IdCall.seteuid 0, IdCall.setgroups groups,
   IdCall.setegid egid, IdCall.seteuid euid]

/-- Running the batch does not depend on, nor change, the identity fields:
only the world component is threaded through the operations. -/
theorem runBatch_append {W R : Type} (xs ys : List (Op W R)) (w : W) (acc : Option R) :
    runBatch (xs ++ ys) w acc =
      match runBatch xs w acc with
      | (w2, Except.ok acc2) => runBatch ys w2 acc2
      | (w2, Except.error e) => (w2, Except.error e) := by
  induction xs generalizing w acc with
  | nil => simp [runBatch]
  | cons op rest ih =>
    simp only [List.cons_append, runBatch]
    cases h : (op w).2 with
    | ok r => simp [h, ih]
    | error e => simp [h]

/-- C1: for every identity and every operation batch, after `_runAsUser`
returns — whether the batch succeeded or an operation raised — the process's
effective uid, effective gid, and supplementary-group list equal their values
from immediately before the call. -/
theorem runAsUser_restores_identity {W R : Type} (ident : Identity)
    (ops : List (Op W R)) (s : SysState W) :
    (runAsUser ident ops s).1.euid = s.euid ∧
    (runAsUser ident ops s).1.egid = s.egid ∧
    (runAsUser ident ops s).1.groups = s.groups := by
  refine ⟨?_, ?_, ?_⟩ <;>
    simp [runAsUser, doSeteuid, doSetegid, doSetgroups]

/-- C3: `_runAsUser` performs the identity switch in the exact specified
order — `setegid 0`, `seteuid 0`, `setgroups target`, `setegid targetGid`,
`seteuid targetUid`, and in cleanup `setegid 0`, `seteuid 0`,
`setgroups saved`, `setegid savedEgid`, `seteuid savedEuid` — regardless of
the batch. -/
theorem runAsUser_syscall_order {W R : Type} (ident : Identity)
    (ops : List (Op W R)) (s : SysState W) :
    (runAsUser ident ops s).1.calls
      = s.calls ++ runAsUserCalls ident s.euid s.egid s.groups := by
  simp [runAsUser, runAsUserCalls, doSeteuid, doSetegid, doSetgroups]

/-- C10: calling `_runAsUser` with an empty batch still performs the full
identity switch and cleanup (the syscall trace is the full switch/cleanup
sequence and the identity fields are restored, with the world untouched), but
the call then raises an unbound-local error for `r` instead of returning a
value. -/
theorem runAsUser_empty_batch {W R : Type} (ident : Identity) (s : SysState W) :
    (runAsUser ident ([] : List (Op W R)) s).2 = Except.error RunError.unboundLocal ∧
    (runAsUser ident ([] : List (Op W R)) s).1.euid = s.euid ∧
    (runAsUser ident ([] : List (Op W R)) s).1.egid = s.egid ∧
    (runAsUser ident ([] : List (Op W R)) s).1.groups = s.groups ∧
    (runAsUser ident ([] : List (Op W R)) s).1.world = s.world ∧
    (runAsUser ident ([] : List (Op W R)) s).1.calls
      = s.calls ++ runAsUserCalls ident s.euid s.egid s.groups := by
  refine ⟨?_, ?_, ?_, ?_, ?_, ?_⟩ <;>
    simp [runAsUser, runBatch, runAsUserCalls, doSeteuid, doSetegid, doSetgroups]

/-- C2: if the operations before `op` succeed and `op` raises, then the
operations after `op` never execute (the whole result does not depend on
them, and the final world is exactly the world `op` left behind), the
identity-restoring cleanup still runs (identity restored, full syscall trace
present), and the exception is propagated to the caller. -/
theorem runAsUser_abort_on_raise {W R : Type} (ident : Identity)
    (pre post post2 : List (Op W R)) (op : Op W R) (s : SysState W)
    (w1 : W) (acc : Option R) (e : String)
    (hpre : runBatch pre s.world none = (w1, Except.ok acc))
    (hop : (op w1).2 = Except.error e) :
    runAsUser ident (pre ++ op :: post) s = runAsUser ident (pre ++ op :: post2) s ∧
    (runAsUser ident (pre ++ op :: post) s).2 = Except.error (RunError.opError e) ∧
    (runAsUser ident (pre ++ op :: post) s).1.world = (op w1).1 ∧
    (runAsUser ident (pre ++ op :: post) s).1.euid = s.euid ∧
    (runAsUser ident (pre ++ op :: post) s).1.egid = s.egid ∧
    (runAsUser ident (pre ++ op :: post) s).1.groups = s.groups ∧
    (runAsUser ident (pre ++ op :: post) s).1.calls
      = s.calls ++ runAsUserCalls ident s.euid s.egid s.groups := by
  have hbatch : ∀ post3 : List (Op W R),
      runBatch (pre ++ op :: post3) s.world none = ((op w1).1, Except.error e) := by
    intro post3
    rw [runBatch_append, hpre]
    simp [runBatch, hop]
  refine ⟨?_, ?_, ?_, ?_, ?_, ?_, ?_⟩ <;>
    simp [runAsUser, runAsUserCalls, doSeteuid, doSetegid, doSetgroups, hbatch]

/-- A batch operation used as a concrete test input: append `1` to the world
log and return `1`. -/
def opLog1 : Op (List Nat) Nat := fun w => (w ++ [1], Except.ok 1)

/-- A concrete failing batch operation: append `2` to the world log, then
raise. -/
def opBoom : Op (List Nat) Nat := fun w => (w ++ [2], Except.error "boom")

/-- A concrete batch operation that must never run after `opBoom`. -/
def opLog3 : Op (List Nat) Nat := fun w => (w ++ [3], Except.ok 3)

/-- A concrete target identity. -/
def identW : Identity := ⟨1000, 100, [100, 20]⟩

/-- A concrete pre-call process state (root identity, empty trace and log). -/
def sysW : SysState (List Nat) := ⟨0, 0, [0], [], []⟩

/-- Witness for C2 at a concrete three-operation batch whose second operation
raises: the third operation never runs, identity is restored, and the
exception propagates after cleanup. -/
theorem runAsUser_abort_witness :
    runAsUser identW ([opLog1] ++ opBoom :: [opLog3]) sysW
      = runAsUser identW ([opLog1] ++ opBoom :: []) sysW ∧
    (runAsUser identW ([opLog1] ++ opBoom :: [opLog3]) sysW).2
      = Except.error (RunError.opError "boom") ∧
    (runAsUser identW ([opLog1] ++ opBoom :: [opLog3]) sysW).1.world = (opBoom [1]).1 ∧
    (runAsUser identW ([opLog1] ++ opBoom :: [opLog3]) sysW).1.euid = sysW.euid ∧
    (runAsUser identW ([opLog1] ++ opBoom :: [opLog3]) sysW).1.egid = sysW.egid ∧
    (runAsUser identW ([opLog1] ++ opBoom :: [opLog3]) sysW).1.groups = sysW.groups ∧
    (runAsUser identW ([opLog1] ++ opBoom :: [opLog3]) sysW).1.calls
      = sysW.calls ++ runAsUserCalls identW sysW.euid sysW.egid sysW.groups :=
  runAsUser_abort_on_raise identW [opLog1] [opLog3] [] opBoom sysW [1] (some 1) "boom"
    rfl rfl

/-- The avatar data `SSHSessionForUnixConchUser` reads from its
`UnixConchUser`: username, uid/gid, home directory, login shell, and the
peer/host socket addresses of the transport. -/
structure Avatar where
  username : String
  uid : Nat
  gid : Nat
  homeDir : String
  shell : String
  peerHost : String
  peerPort : Nat
  hostPort : Nat
deriving DecidableEq, Repr

/-- The session object state: `self.environ` (a string dict), `self.ptyTuple`
(`0` until `getPty` stores `(master, slave, ttyname)`, modelled as an
`Option`), `self.pty` (whether a child process handle is set), `self.winSize`,
`self.modes`, and whether `openShell` installed its write-interception hook
over `proto.transport.write`. -/
structure Session where
  environ : List (String × String)
  ptyTuple : Option (Nat × Nat × String)
  pty : Bool
  winSize : List Nat
  modes : List (Nat × Nat)
  writeHooked : Bool
deriving DecidableEq, Repr

/-- `SSHSessionForUnixConchUser.__init__`: `environ` holds only the default
`PATH`, no pty tuple, no child process. -/
def initSession : Session :=
  { environ := [("PATH", "/bin:/usr/bin:/usr/local/bin")]
    ptyTuple := none
    pty := false
    winSize := []
    modes := []
    writeHooked := false }

/-- Externally observable state the session mutates: the slave tty device
(existence, owner uid, group), the child process, the connection to it, the
login-accounting slot for the tty (`none` = no record, `some true` =
logged-in record, `some false` = dead record), whether the `utmp` module was
importable, the window size last applied by ioctl, whether `setModes`
committed attributes, and the transport's TCP_NODELAY flag. -/
structure World where
  deviceExists : Bool
  deviceOwnerUid : Nat
  deviceGid : Nat
  processAlive : Bool
  connectionOpen : Bool
  utmpSlot : Option Bool
  utmpAvailable : Bool
  winSizeDev : List Nat
  modesApplied : Bool
  tcpNoDelay : Bool
deriving DecidableEq, Repr

/-- Insert or overwrite a key in a string dict (`self.environ[k] = v`). -/
def envSet (env : List (String × String)) (k v : String) : List (String × String) :=
  if env.any (fun kv => kv.1 = k) then
    env.map (fun kv => if kv.1 = k then (k, v) else kv)
  else env ++ [(k, v)]

/-- Shallow embedding of `SSHSessionForUnixConchUser.addUTMPEntry` as far as
its observable effect and failure behaviour go: returns immediately when the
`utmp` module is absent; otherwise it reads `self.ptyTuple[2]` — which raises
`TypeError` when `ptyTuple` is still the integer `0` (no pty was allocated) —
and then writes the login (`loggedIn`) or dead record for the tty. -/
def addUTMPEntry (s : Session) (loggedIn : Bool) (w : World) : World × Option String :=
  if ¬ w.utmpAvailable then (w, none)
  else
    match s.ptyTuple with
    | none => (w, some "TypeError: ptyTuple is not subscriptable")
    | some _ => ({ w with utmpSlot := some loggedIn }, none)

/-- Shallow embedding of `SSHSessionForUnixConchUser.getPtyOwnership`: `stat`
the slave device (raising `OSError` if it no longer exists), then, with
effective ids temporarily raised to root, `chown` it to the target uid while
keeping the device's current group. -/
def getPtyOwnership (av : Avatar) (w : World) : World × Option String :=
  if ¬ w.deviceExists then (w, some "OSError: stat")
  else ({ w with deviceOwnerUid := av.uid }, none)

/-- Shallow embedding of `SSHSessionForUnixConchUser.openShell` (unix.py
lines 187-214).  With no pty tuple it logs and raises `ConchError("no pty")`
before touching anything.  Otherwise it fills in the `USER`/`HOME`/`SHELL`/
`SSH_CLIENT` environment entries, takes pty ownership, spawns the login shell
(child process created), writes the login record, applies the window-size
ioctl, applies the terminal modes when a mode list was supplied, installs the
write-interception hook, and disables TCP coalescing. -/
def openShell (av : Avatar) (s : Session) (w : World) :
    Session × World × Option String :=
  match s.ptyTuple with
  | none => (s, w, some "ConchError: no pty")
  | some _ =>
    let environ := envSet s.environ "USER" av.username
    let environ := envSet environ "HOME" av.homeDir
    let environ := envSet environ "SHELL" av.shell
    let environ := envSet environ "SSH_CLIENT"
      (av.peerHost ++ " " ++ toString av.peerPort ++ " " ++ toString av.hostPort)
    let s := { s with environ := environ }
    let own := getPtyOwnership av w
    match own.2 with
    | some e => (s, own.1, some e)
    | none =>
      let w := own.1
      let s := { s with pty := true }
      let w := { w with processAlive := true }
      let ut := addUTMPEntry s true w
      match ut.2 with
      | some e => (s, ut.1, some e)
      | none =>
        let w := ut.1
        let w := { w with winSizeDev := s.winSize }
        let w := if s.modes ≠ [] then { w with modesApplied := true } else w
        let s := { s with writeHooked := true }
        let w := { w with tcpNoDelay := true }
        (s, w, none)

/-- Shallow embedding of `ProcessPty.signalProcess("HUP")`: delivering a
hang-up to a live child (which then dies), or raising
`ProcessExitedAlready` when the child is already gone. -/
def signalHUP (w : World) : World × Option String :=
  if w.processAlive then ({ w with processAlive := false }, none)
  else (w, some "ProcessExitedAlready")

/-- Shallow embedding of `SSHSessionForUnixConchUser.closed` (unix.py lines
277-288): if a pty tuple exists and its device still exists, `chown` the
device back to root while keeping its group; if a child process handle
exists, signal HUP (swallowing `OSError`/`ProcessExitedAlready`), drop the
connection, and write the dead login record via `addUTMPEntry(0)`.  The
second component is the exception, if any, that escapes `closed` itself. -/
def closedSess (s : Session) (w : World) : World × Option String :=
  let w :=
    match s.ptyTuple with
    | some _ => if w.deviceExists then { w with deviceOwnerUid := 0 } else w
    | none => w
  if s.pty then
    let sig := signalHUP w
    let w := sig.1
    let w := { w with connectionOpen := false }
    addUTMPEntry s false w
  else (w, none)

/-- C4: invoking `openShell` on a session with no allocated pty fails with
the no-pty `ConchError`, and the session's observable state is unchanged —
the session record and the world (no process spawned, no pty ownership
taken, no login record written) are returned exactly as they were. -/
theorem openShell_no_pty (av : Avatar) (s : Session) (w : World)
    (h : s.ptyTuple = none) :
    openShell av s w = (s, w, some "ConchError: no pty") := by
  simp [openShell, h]

/-- A concrete avatar used as a test input. -/
def avatarW : Avatar :=
  { username := "u", uid := 1000, gid := 1000, homeDir := "/home/u"
    shell := "/bin/sh", peerHost := "10.0.0.2", peerPort := 40000, hostPort := 22 }

/-- A concrete world in its freshly-connected state. -/
def worldW : World :=
  { deviceExists := true, deviceOwnerUid := 0, deviceGid := 5
    processAlive := false, connectionOpen := true, utmpSlot := none
    utmpAvailable := true, winSizeDev := [], modesApplied := false
    tcpNoDelay := false }

/-- Witness for C4: on a freshly created session (no `pty-req` was made),
`openShell` fails with the no-pty error and leaves session and world
untouched. -/
theorem openShell_no_pty_witness :
    initSession.ptyTuple = none ∧
    openShell avatarW initSession worldW
      = (initSession, worldW, some "ConchError: no pty") :=
  ⟨rfl, openShell_no_pty avatarW initSession worldW rfl⟩

/-- A session as left by `execCommand` without a prior pty request: a child
process exists but `ptyTuple` is still `0`. -/
def sessExecNoPty : Session := { initSession with pty := true }

/-- C5 (failing evaluation): on a session that has a child process but no
pty — exactly what `execCommand` without a `pty-req` produces — and with the
`utmp` module available, `closed` lets a `TypeError` escape its boundary:
`addUTMPEntry(0)` is called because `self.pty` is set, and it subscripts
`self.ptyTuple` (the integer `0`).  This contradicts the claim that `close`
never raises past its own boundary regardless of the session's state. -/
theorem closed_raises_without_pty :
    (closedSess sessExecNoPty worldW).2
      = some "TypeError: ptyTuple is not subscriptable" := by
  decide

/-- Modelled from the spec: the open-flag bit constants of the
remote-file-access protocol (`FXF_*`, imported from `ssh/filetransfer.py`,
which is not part of the analysed sources).  The spec describes `flags` as a
bitmask with independent read / write / append / create / truncate /
exclusive-create bits; these are the protocol's standard bit assignments. -/
def FXF_READ : Nat := 1

/-- Modelled from the spec: protocol write bit. -/
def FXF_WRITE : Nat := 2

/-- Modelled from the spec: protocol append bit. -/
def FXF_APPEND : Nat := 4

/-- Modelled from the spec: protocol create bit. -/
def FXF_CREAT : Nat := 8

/-- Modelled from the spec: protocol truncate bit. -/
def FXF_TRUNC : Nat := 16

/-- Modelled from the spec: protocol exclusive-create bit. -/
def FXF_EXCL : Nat := 32

/-- The `os.O_*` open-mode constants of the host OS, kept abstract: the
claims are about which constants are combined, not their platform-specific
numeric values. -/
structure OpenConsts where
  O_RDONLY : Nat
  O_WRONLY : Nat
  O_RDWR : Nat
  O_APPEND : Nat
  O_CREAT : Nat
  O_TRUNC : Nat
  O_EXCL : Nat
deriving DecidableEq, Repr

/-- Shallow embedding of the flag-decoding prologue of
`UnixSFTPFile.__init__` (unix.py lines 400-414): the access mode is selected
by the read/write bits (each `if` assigns, the later ones OR in). -/
def decodeOpenFlags (c : OpenConsts) (flags : Nat) : Nat :=
  let openFlags := 0
  let openFlags :=
    if flags &&& FXF_READ = FXF_READ ∧ flags &&& FXF_WRITE = 0 then c.O_RDONLY
    else openFlags
  let openFlags :=
    if flags &&& FXF_WRITE = FXF_WRITE ∧ flags &&& FXF_READ = 0 then c.O_WRONLY
    else openFlags
  let openFlags :=
    if flags &&& FXF_WRITE = FXF_WRITE ∧ flags &&& FXF_READ = FXF_READ then c.O_RDWR
    else openFlags
  let openFlags :=
    if flags &&& FXF_APPEND = FXF_APPEND then openFlags ||| c.O_APPEND else openFlags
  let openFlags :=
    if flags &&& FXF_CREAT = FXF_CREAT then openFlags ||| c.O_CREAT else openFlags
  let openFlags :=
    if flags &&& FXF_TRUNC = FXF_TRUNC then openFlags ||| c.O_TRUNC else openFlags
  let openFlags :=
    if flags &&& FXF_EXCL = FXF_EXCL then openFlags ||| c.O_EXCL else openFlags
  openFlags

/-- C6: the three flag combinations of the spec decode to exactly the OR of
the corresponding `O_*` constants: `READ` alone to the read-only mode,
`WRITE|CREAT|TRUNC` to write-only with create and truncate, and
`READ|WRITE|APPEND` to read-write with append. -/
theorem decodeOpenFlags_cases (c : OpenConsts) :
    decodeOpenFlags c FXF_READ = c.O_RDONLY ∧
    decodeOpenFlags c (FXF_WRITE ||| FXF_CREAT ||| FXF_TRUNC)
      = c.O_WRONLY ||| c.O_CREAT ||| c.O_TRUNC ∧
    decodeOpenFlags c (FXF_READ ||| FXF_WRITE ||| FXF_APPEND)
      = c.O_RDWR ||| c.O_APPEND := by
  have e1 : (1 : Nat) &&& 1 = 1 := by decide
  have e2 : (1 : Nat) &&& 2 = 0 := by decide
  have e3 : (1 : Nat) &&& 4 = 0 := by decide
  have e4 : (1 : Nat) &&& 8 = 0 := by decide
  have e5 : (1 : Nat) &&& 16 = 0 := by decide
  have e6 : (1 : Nat) &&& 32 = 0 := by decide
  have f1 : (26 : Nat) &&& 1 = 0 := by decide
  have f2 : (26 : Nat) &&& 2 = 2 := by decide
  have f3 : (26 : Nat) &&& 4 = 0 := by decide
  have f4 : (26 : Nat) &&& 8 = 8 := by decide
  have f5 : (26 : Nat) &&& 16 = 16 := by decide
  have f6 : (26 : Nat) &&& 32 = 0 := by decide
  have g1 : (7 : Nat) &&& 1 = 1 := by decide
  have g2 : (7 : Nat) &&& 2 = 2 := by decide
  have g3 : (7 : Nat) &&& 4 = 4 := by decide
  have g4 : (7 : Nat) &&& 8 = 0 := by decide
  have g5 : (7 : Nat) &&& 16 = 0 := by decide
  have g6 : (7 : Nat) &&& 32 = 0 := by decide
  refine ⟨?_, ?_, ?_⟩ <;>
    simp [decodeOpenFlags, FXF_READ, FXF_WRITE, FXF_APPEND, FXF_CREAT, FXF_TRUNC, FXF_EXCL,
      e1, e2, e3, e4, e5, e6, f1, f2, f3, f4, f5, f6, g1, g2, g3, g4, g5, g6]

/-- The attribute dictionary of the remote-file-access protocol, restricted
to the keys this server ever reads (`_setAttrs` and `_getAttrs`): `size`,
`uid`, `gid`, `permissions`, `atime`, `mtime`; absent keys are `none`. -/
structure Attrs where
  size : Option Nat
  uid : Option Nat
  gid : Option Nat
  permissions : Option Nat
  atime : Option Nat
  mtime : Option Nat
deriving DecidableEq, Repr

/-- Truthiness of the attribute dict (`if attrs:`) — some key is present. -/
def Attrs.nonempty (a : Attrs) : Bool :=
  a.size.isSome || a.uid.isSome || a.gid.isSome ||
    a.permissions.isSome || a.atime.isSome || a.mtime.isSome

/-- The observable calls `UnixSFTPFile.__init__` makes under `_runAsUser`,
in order. -/
inductive FileCall where
  | osOpen (filename : String) (openFlags : Nat) (mode : Nat)
  | setAttrsCall (filename : String) (a : Attrs)
deriving DecidableEq, Repr

/-- Shallow embedding of `UnixSFTPFile.__init__` (unix.py lines 398-423)
after the flag decoding: take `mode` from `attrs["permissions"]` (deleting
that key) or default to `0o777`, call `os.open(filename, openFlags, mode)`,
and, if any attributes remain, immediately call `_setAttrs` with them.  The
result is the ordered list of calls made. -/
def sftpFileOpen (c : OpenConsts) (filename : String) (flags : Nat) (attrs : Attrs) :
    List FileCall :=
  let openFlags := decodeOpenFlags c flags
  let p :=
    match attrs.permissions with
    | some m => (m, { attrs with permissions := none })
    | none => (511, attrs)
  FileCall.osOpen filename openFlags p.1 ::
    (if p.2.nonempty then [FileCall.setAttrsCall filename p.2] else [])

/-- C7: if the incoming attrs carry a permission mode it is used as the mode
of the create call and stripped before any subsequent attribute-set call; if
not, the create mode is `0o777` (511); and exactly when attributes remain
after stripping, a single attribute-set call with the stripped attrs
immediately follows the open. -/
theorem sftpFileOpen_attrs (c : OpenConsts) (filename : String) (flags : Nat)
    (attrs : Attrs) :
    (∀ m, attrs.permissions = some m →
      sftpFileOpen c filename flags attrs
        = FileCall.osOpen filename (decodeOpenFlags c flags) m ::
          (if ({ attrs with permissions := none } : Attrs).nonempty then
            [FileCall.setAttrsCall filename { attrs with permissions := none }]
          else [])) ∧
    (attrs.permissions = none →
      sftpFileOpen c filename flags attrs
        = FileCall.osOpen filename (decodeOpenFlags c flags) 511 ::
          (if attrs.nonempty then [FileCall.setAttrsCall filename attrs] else [])) := by
  constructor
  · intro m hm
    simp [sftpFileOpen, hm]
  · intro hm
    simp [sftpFileOpen, hm]

/-- Witness for C7: with `attrs = {permissions: 0o640, uid: 1000, gid: 100}`
the create call uses mode `0o640` and the follow-up attribute-set call sees
the dict without `permissions`; with `attrs = {}` the create mode is `0o777`
and no attribute-set call is made. -/
theorem sftpFileOpen_attrs_witness :
    sftpFileOpen ⟨0, 1, 2, 1024, 64, 512, 128⟩ "report.txt"
        (FXF_WRITE ||| FXF_CREAT ||| FXF_TRUNC)
        ⟨none, some 1000, some 100, some 416, none, none⟩
      = FileCall.osOpen "report.txt"
          (decodeOpenFlags ⟨0, 1, 2, 1024, 64, 512, 128⟩
            (FXF_WRITE ||| FXF_CREAT ||| FXF_TRUNC)) 416 ::
          (if (⟨none, some 1000, some 100, none, none, none⟩ : Attrs).nonempty then
            [FileCall.setAttrsCall "report.txt" ⟨none, some 1000, some 100, none, none, none⟩]
          else []) ∧
    sftpFileOpen ⟨0, 1, 2, 1024, 64, 512, 128⟩ "report.txt" FXF_READ
        ⟨none, none, none, none, none, none⟩
      = FileCall.osOpen "report.txt"
          (decodeOpenFlags ⟨0, 1, 2, 1024, 64, 512, 128⟩ FXF_READ) 511 ::
          (if (⟨none, none, none, none, none, none⟩ : Attrs).nonempty then
            [FileCall.setAttrsCall "report.txt" ⟨none, none, none, none, none, none⟩]
          else []) :=
  ⟨(sftpFileOpen_attrs ⟨0, 1, 2, 1024, 64, 512, 128⟩ "report.txt"
      (FXF_WRITE ||| FXF_CREAT ||| FXF_TRUNC)
      ⟨none, some 1000, some 100, some 416, none, none⟩).1 416 rfl,
   (sftpFileOpen_attrs ⟨0, 1, 2, 1024, 64, 512, 128⟩ "report.txt" FXF_READ
      ⟨none, none, none, none, none, none⟩).2 rfl⟩

/-- Does the character sequence `cs` start with the pattern `ps`
(`str.startswith`)?  Defined structurally so that concrete instances reduce
by evaluation. -/
def startsWithC : List Char → List Char → Bool
  | _, [] => true
  | [], _ :: _ => false
  | c :: cs, p :: ps => c = p && startsWithC cs ps

/-- `str.split('/')` on a character sequence: split at every slash, keeping
empty pieces, with `acc` the (reversed) piece being accumulated. -/
def splitSlash : List Char → List Char → List (List Char)
  | [], acc => [acc.reverse]
  | c :: rest, acc =>
    if c = '/' then acc.reverse :: splitSlash rest []
    else splitSlash rest (c :: acc)

/-- `'/'.join(pieces)` on character sequences. -/
def joinSlash : List (List Char) → List Char
  | [] => []
  | [x] => x
  | x :: xs => x ++ '/' :: joinSlash xs

/-- The component-filtering loop of `posixpath.normpath`: drop empty and
`"."` components; append a component unless it is a `".."` that can cancel
(the path is not rooted and nothing was collected yet, or the previous
component is itself `".."`, make it stay), in which case pop the previous
component — a `".."` at the root with nothing collected is simply dropped. -/
def normLoop (initialSlashes : Nat) (comps : List (List Char)) : List (List Char) :=
  comps.foldl
    (fun newComps comp =>
      if comp = [] ∨ comp = ['.'] then newComps
      else if comp ≠ ['.', '.'] ∨ (initialSlashes = 0 ∧ newComps = []) ∨
          (newComps ≠ [] ∧ newComps.getLast? = some ['.', '.']) then
        newComps ++ [comp]
      else if newComps ≠ [] then newComps.dropLast
      else newComps)
    []

/-- Shallow embedding of `posixpath.normpath` on the path's character
sequence: empty path becomes `"."`; one or two (but not three or more)
leading slashes are preserved; components are filtered by `normLoop`; an
empty result becomes `"."`. -/
def normpathC (cs : List Char) : List Char :=
  if cs = [] then ['.']
  else
    let initialSlashes : Nat :=
      if startsWithC cs ['/'] then
        if startsWithC cs ['/', '/'] ∧ ¬ startsWithC cs ['/', '/', '/'] then 2 else 1
      else 0
    let comps := splitSlash cs []
    let newComps := normLoop initialSlashes comps
    let joined := joinSlash newComps
    let full := List.replicate initialSlashes '/' ++ joined
    if full = [] then ['.'] else full

/-- Shallow embedding of `posixpath.normpath` on strings. -/
def normpath (path : String) : String :=
  String.mk (normpathC path.data)

/-- Shallow embedding of the two-argument `posixpath.join`: an absolute
second argument discards the first; otherwise the two are joined with a
separating slash unless the first is empty or already ends in one. -/
def posixJoin (a b : String) : String :=
  if startsWithC b.data ['/'] then b
  else if a.data = [] ∨ a.data.getLast? = some '/' then String.mk (a.data ++ b.data)
  else String.mk (a.data ++ '/' :: b.data)

/-- Shallow embedding of `posixpath.abspath`: paths that are not absolute
are joined onto the current working directory; the result is normalised. -/
def abspath (cwd path : String) : String :=
  if startsWithC path.data ['/'] then normpath path
  else normpath (posixJoin cwd path)

/-- Shallow embedding of `SFTPServerForUnixConchUser._absPath` (unix.py
lines 336-338): `os.path.abspath(os.path.join(home, path))`. -/
def absPath (cwd home path : String) : String :=
  abspath cwd (posixJoin home path)

/-- C9: when the incoming path is itself absolute, `_absPath` returns that
path merely normalised — the identity's home directory (and the process's
working directory) play no role, so an absolute remote path addresses the
whole filesystem. -/
theorem absPath_absolute (cwd home path : String)
    (h : startsWithC path.data ['/'] = true) :
    absPath cwd home path = normpath path ∧
    ∀ cwd2 home2 : String, absPath cwd2 home2 path = absPath cwd home path := by
  have hj : ∀ a : String, posixJoin a path = path := by
    intro a
    simp [posixJoin, h]
  constructor
  · simp [absPath, abspath, hj, h]
  · intro cwd2 home2
    simp [absPath, abspath, hj, h]

/-- Witness for C9: the absolute remote path `"/etc/passwd"` resolves to
`"/etc/passwd"` itself for a user whose home is `"/home/u"`, and the result
is the same under any other home directory and working directory. -/
theorem absPath_absolute_witness :
    absPath "/" "/home/u" "/etc/passwd" = normpath "/etc/passwd" ∧
    (∀ cwd2 home2 : String,
      absPath cwd2 home2 "/etc/passwd" = absPath "/" "/home/u" "/etc/passwd") ∧
    normpath "/etc/passwd" = "/etc/passwd" :=
  ⟨(absPath_absolute "/" "/home/u" "/etc/passwd" (by decide)).1,
   (absPath_absolute "/" "/home/u" "/etc/passwd" (by decide)).2,
   by decide⟩

/-- Python's `x & ~v` on the non-negative terminal-flag integers: clear in
`x` the bits set in `v`.  Expressed with `^^^`/`&&&` so that concrete
instances reduce by kernel evaluation. -/
def andNot (x v : Nat) : Nat := x ^^^ (x &&& v)

/-- Bit characterisation of `andNot`. -/
theorem testBit_andNot (x v i : Nat) :
    (andNot x v).testBit i = (x.testBit i && ! v.testBit i) := by
  simp only [andNot, Nat.testBit_xor, Nat.testBit_land]
  cases x.testBit i <;> cases v.testBit i <;> rfl

/-- The net effect of a sequence of single-bit sets and clears on one
terminal flag field: clear the bits in `clearBits`, then set the bits in
`setBits`. -/
structure FlagStore where
  clearBits : Nat
  setBits : Nat
deriving DecidableEq, Repr

/-- Apply a flag-field store to a field value. -/
def applyFS (t : FlagStore) (x : Nat) : Nat := andNot x t.clearBits ||| t.setBits

/-- The store that leaves a field unchanged. -/
def idFS : FlagStore := ⟨0, 0⟩

/-- Composition: `compFS t2 t1` is `t1` followed by `t2`. -/
def compFS (t2 t1 : FlagStore) : FlagStore :=
  ⟨t1.clearBits ||| t2.clearBits, andNot t1.setBits t2.clearBits ||| t2.setBits⟩

theorem applyFS_id (x : Nat) : applyFS idFS x = x := by
  apply Nat.eq_of_testBit_eq
  intro i
  simp [applyFS, idFS, testBit_andNot, Nat.testBit_lor, Nat.zero_testBit]

theorem applyFS_comp (t2 t1 : FlagStore) (x : Nat) :
    applyFS t2 (applyFS t1 x) = applyFS (compFS t2 t1) x := by
  apply Nat.eq_of_testBit_eq
  intro i
  simp only [applyFS, compFS, testBit_andNot, Nat.testBit_lor]
  cases x.testBit i <;> cases t1.clearBits.testBit i <;> cases t1.setBits.testBit i <;>
    cases t2.clearBits.testBit i <;> cases t2.setBits.testBit i <;> rfl

theorem applyFS_idem (t : FlagStore) (x : Nat) :
    applyFS t (applyFS t x) = applyFS t x := by
  apply Nat.eq_of_testBit_eq
  intro i
  simp only [applyFS, testBit_andNot, Nat.testBit_lor]
  cases x.testBit i <;> cases t.clearBits.testBit i <;> cases t.setBits.testBit i <;> rfl

/-- Apply a sequence of control-character slot writes (`attr[CC][idx] = v`,
modelled with `List.set`) to the `cc` array. -/
def ccApply (L : List (Nat × Nat)) (cs : List Nat) : List Nat :=
  L.foldl (fun l iv => l.set iv.1 iv.2) cs

/-- The value slot `p` holds after the writes `L`, starting from `d`: the
last write to `p` wins. -/
def writeVal (L : List (Nat × Nat)) (p : Nat) (d : Nat) : Nat :=
  L.foldl (fun d iv => if iv.1 = p then iv.2 else d) d

theorem ccApply_append (L1 L2 : List (Nat × Nat)) (cs : List Nat) :
    ccApply (L1 ++ L2) cs = ccApply L2 (ccApply L1 cs) := by
  simp [ccApply, List.foldl_append]

theorem ccApply_getElem (L : List (Nat × Nat)) (cs : List Nat) (p : Nat) :
    (ccApply L cs)[p]? = Option.map (writeVal L p) cs[p]? := by
  induction L generalizing cs with
  | nil =>
    simp only [ccApply, List.foldl_nil]
    cases cs[p]? <;> simp [writeVal]
  | cons iv L2 ih =>
    have hstep : ccApply (iv :: L2) cs = ccApply L2 (cs.set iv.1 iv.2) := by
      simp [ccApply]
    have hw : ∀ d : Nat, writeVal (iv :: L2) p d = writeVal L2 p (if iv.1 = p then iv.2 else d) := by
      intro d
      simp [writeVal]
    rw [hstep, ih, List.getElem?_set]
    by_cases hip : iv.1 = p
    · by_cases hlen : p < cs.length
      · rw [List.getElem?_eq_getElem hlen]
        simp [hip, hlen, hw]
      · rw [List.getElem?_eq_none (Nat.le_of_not_lt hlen)]
        simp [hip, hlen]
    · cases h : cs[p]? <;> simp [hip, hw]

theorem writeVal_idem (L : List (Nat × Nat)) (p d : Nat) :
    writeVal L p (writeVal L p d) = writeVal L p d := by
  induction L generalizing d with
  | nil => simp [writeVal]
  | cons iv L2 ih =>
    have hw : ∀ e : Nat, writeVal (iv :: L2) p e = writeVal L2 p (if iv.1 = p then iv.2 else e) := by
      intro e
      simp [writeVal]
    by_cases hip : iv.1 = p
    · simp [hw, hip]
    · simp [hw, hip, ih]

theorem ccApply_idem (L : List (Nat × Nat)) (cs : List Nat) :
    ccApply L (ccApply L cs) = ccApply L cs := by
  apply List.ext_getElem?
  intro p
  rw [ccApply_getElem, ccApply_getElem]
  cases h : cs[p]? <;> simp [writeVal_idem]

/-- Index of one of the four flag fields of the `tcgetattr` attribute list
(`tty.IFLAG` / `OFLAG` / `CFLAG` / `LFLAG`), the only fields the
`ttymodes.TTYMODES` flag entries refer to. -/
inductive FlagField where
  | iflag
  | oflag
  | cflag
  | lflag
deriving DecidableEq, Repr

/-- Shape of one `ttymodes.TTYMODES` table entry: a `(flag-field, name)`
pair toggling a single-bit flag, the input/output baud-rate pseudo-modes, or
the name of a control-character slot. -/
inductive TtyModeEntry where
  | flagBit (field : FlagField) (attrName : String)
  | ospeedE
  | ispeedE
  | ccChar (attrName : String)
deriving DecidableEq, Repr

/-- Modelled from the spec: the static translation environment `setModes`
reads — the `ttymodes.TTYMODES` table and the host `tty` module, neither of
which is part of the analysed sources.  `modeTable` is the table lookup
(`none` = unknown mode code, silently skipped); `ttyAttr` is
`hasattr`/`getattr` on the `tty` module for flag-bit values and
control-character slot indices (`none` = attribute missing, skipped); `baud`
is `getattr(tty, "B<value>")` for the baud-rate pseudo-modes (`none` =
missing, which raises `AttributeError`). -/
structure TtyEnv where
  modeTable : Nat → Option TtyModeEntry
  ttyAttr : String → Option Nat
  baud : Nat → Option Nat

/-- The terminal attribute state `tcgetattr` returns and `tcsetattr`
commits: the four flag words, the two speed fields, and the
control-character array. -/
structure TermAttrs where
  iflag : Nat
  oflag : Nat
  cflag : Nat
  lflag : Nat
  ispeed : Nat
  ospeed : Nat
  cc : List Nat
deriving DecidableEq, Repr

/-- Read one flag field (`attr[flag]`). -/
def getFlagField (a : TermAttrs) : FlagField → Nat
  | FlagField.iflag => a.iflag
  | FlagField.oflag => a.oflag
  | FlagField.cflag => a.cflag
  | FlagField.lflag => a.lflag

/-- Write one flag field (`attr[flag] = v`). -/
def setFlagField (a : TermAttrs) : FlagField → Nat → TermAttrs
  | FlagField.iflag, v => { a with iflag := v }
  | FlagField.oflag, v => { a with oflag := v }
  | FlagField.cflag, v => { a with cflag := v }
  | FlagField.lflag, v => { a with lflag := v }

/-- One iteration of the `setModes` loop (unix.py lines 252-270) on a
`(mode, modeValue)` pair: unknown modes and modes whose `tty` attribute is
missing are skipped; flag entries set or clear one bit according to the
value's truthiness; the baud pseudo-modes overwrite a speed field, raising
`AttributeError` when `tty` has no `B<value>` attribute; control-character
entries store the value into the indicated `cc` slot. -/
def applyMode (env : TtyEnv) (a : TermAttrs) (m : Nat × Nat) : Except String TermAttrs :=
  match env.modeTable m.1 with
  | none => Except.ok a
  | some (TtyModeEntry.flagBit field attrName) =>
    match env.ttyAttr attrName with
    | none => Except.ok a
    | some v =>
      if m.2 ≠ 0 then Except.ok (setFlagField a field (getFlagField a field ||| v))
      else Except.ok (setFlagField a field (andNot (getFlagField a field) v))
  | some TtyModeEntry.ospeedE =>
    match env.baud m.2 with
    | none => Except.error "AttributeError"
    | some b => Except.ok { a with ospeed := b }
  | some TtyModeEntry.ispeedE =>
    match env.baud m.2 with
    | none => Except.error "AttributeError"
    | some b => Except.ok { a with ispeed := b }
  | some (TtyModeEntry.ccChar attrName) =>
    match env.ttyAttr attrName with
    | none => Except.ok a
    | some idx => Except.ok { a with cc := a.cc.set idx m.2 }

/-- Shallow embedding of `SSHSessionForUnixConchUser.setModes`: starting
from the attributes `tcgetattr` returned, fold the mode list through
`applyMode`; the result is what `tcsetattr` commits (or the exception that
aborts the call). -/
def applyModes (env : TtyEnv) : TermAttrs → List (Nat × Nat) → Except String TermAttrs
  | a, [] => Except.ok a
  | a, m :: ms =>
    match applyMode env a m with
    | Except.error e => Except.error e
    | Except.ok a2 => applyModes env a2 ms

/-- Normal form of the state transformation a mode list denotes: one
flag-field store per flag word, optional overwrites of the speed fields, and
a sequence of control-character writes. -/
structure Store where
  fi : FlagStore
  fo : FlagStore
  fc : FlagStore
  fl : FlagStore
  si : Option Nat
  so : Option Nat
  ccw : List (Nat × Nat)
deriving DecidableEq, Repr

/-- Apply a store to a terminal attribute state. -/
def applyStore (st : Store) (a : TermAttrs) : TermAttrs :=
  { iflag := applyFS st.fi a.iflag
    oflag := applyFS st.fo a.oflag
    cflag := applyFS st.fc a.cflag
    lflag := applyFS st.fl a.lflag
    ispeed := st.si.getD a.ispeed
    ospeed := st.so.getD a.ospeed
    cc := ccApply st.ccw a.cc }

/-- The store that changes nothing. -/
def idStore : Store := ⟨idFS, idFS, idFS, idFS, none, none, []⟩

/-- Composition of stores: `compStore s2 s1` is `s1` followed by `s2`. -/
def compStore (s2 s1 : Store) : Store :=
  { fi := compFS s2.fi s1.fi
    fo := compFS s2.fo s1.fo
    fc := compFS s2.fc s1.fc
    fl := compFS s2.fl s1.fl
    si := match s2.si with | some b => some b | none => s1.si
    so := match s2.so with | some b => some b | none => s1.so
    ccw := s1.ccw ++ s2.ccw }

theorem applyStore_id (a : TermAttrs) : applyStore idStore a = a := by
  simp [applyStore, idStore, applyFS_id, ccApply]

theorem applyStore_comp (s2 s1 : Store) (a : TermAttrs) :
    applyStore s2 (applyStore s1 a) = applyStore (compStore s2 s1) a := by
  simp only [applyStore, compStore, applyFS_comp, ccApply_append]
  refine TermAttrs.mk.injEq .. ▸ ?_
  cases s2.si <;> cases s2.so <;> simp

theorem applyStore_idem (st : Store) (a : TermAttrs) :
    applyStore st (applyStore st a) = applyStore st a := by
  simp only [applyStore, applyFS_idem, ccApply_idem]
  cases st.si <;> cases st.so <;> simp

/-- The store one `(mode, modeValue)` pair denotes (mirrors `applyMode`). -/
def store1 (env : TtyEnv) (m : Nat × Nat) : Except String Store :=
  match env.modeTable m.1 with
  | none => Except.ok idStore
  | some (TtyModeEntry.flagBit field attrName) =>
    match env.ttyAttr attrName with
    | none => Except.ok idStore
    | some v =>
      let fs : FlagStore := if m.2 ≠ 0 then ⟨0, v⟩ else ⟨v, 0⟩
      Except.ok
        (match field with
        | FlagField.iflag => { idStore with fi := fs }
        | FlagField.oflag => { idStore with fo := fs }
        | FlagField.cflag => { idStore with fc := fs }
        | FlagField.lflag => { idStore with fl := fs })
  | some TtyModeEntry.ospeedE =>
    match env.baud m.2 with
    | none => Except.error "AttributeError"
    | some b => Except.ok { idStore with so := some b }
  | some TtyModeEntry.ispeedE =>
    match env.baud m.2 with
    | none => Except.error "AttributeError"
    | some b => Except.ok { idStore with si := some b }
  | some (TtyModeEntry.ccChar attrName) =>
    match env.ttyAttr attrName with
    | none => Except.ok idStore
    | some idx => Except.ok { idStore with ccw := [(idx, m.2)] }

/-- The store a whole mode list denotes, failing where the loop fails. -/
def storeOf (env : TtyEnv) : List (Nat × Nat) → Except String Store
  | [] => Except.ok idStore
  | m :: ms =>
    match store1 env m with
    | Except.error e => Except.error e
    | Except.ok st1 =>
      match storeOf env ms with
      | Except.error e => Except.error e
      | Except.ok st2 => Except.ok (compStore st2 st1)

theorem andNot_zero (x : Nat) : andNot x 0 = x := by
  apply Nat.eq_of_testBit_eq
  intro i
  simp [testBit_andNot, Nat.zero_testBit]

theorem applyFS_setOnly (v x : Nat) : applyFS ⟨0, v⟩ x = x ||| v := by
  simp [applyFS, andNot_zero]

theorem applyFS_clearOnly (v x : Nat) : applyFS ⟨v, 0⟩ x = andNot x v := by
  apply Nat.eq_of_testBit_eq
  intro i
  simp [applyFS, testBit_andNot, Nat.testBit_lor, Nat.zero_testBit]

theorem applyMode_store1 (env : TtyEnv) (a : TermAttrs) (m : Nat × Nat) :
    applyMode env a m = Except.map (fun st => applyStore st a) (store1 env m) := by
  unfold applyMode store1
  cases hT : env.modeTable m.1 with
  | none => simp [Except.map, applyStore_id]
  | some entry =>
    cases entry with
    | flagBit field attrName =>
      cases hA : env.ttyAttr attrName with
      | none => simp [hA, Except.map, applyStore_id]
      | some v =>
        by_cases hv : m.2 ≠ 0 <;>
          cases field <;>
            simp [hA, hv, Except.map, applyStore, idStore, setFlagField, getFlagField,
              applyFS_setOnly, applyFS_clearOnly, applyFS_id, ccApply]
    | ospeedE =>
      cases hB : env.baud m.2 with
      | none => simp [hB, Except.map]
      | some b => simp [hB, Except.map, applyStore, idStore, applyFS_id, ccApply]
    | ispeedE =>
      cases hB : env.baud m.2 with
      | none => simp [hB, Except.map]
      | some b => simp [hB, Except.map, applyStore, idStore, applyFS_id, ccApply]
    | ccChar attrName =>
      cases hA : env.ttyAttr attrName with
      | none => simp [hA, Except.map, applyStore_id]
      | some idx => simp [hA, Except.map, applyStore, idStore, applyFS_id, ccApply]

theorem applyModes_storeOf (env : TtyEnv) (a : TermAttrs) (ms : List (Nat × Nat)) :
    applyModes env a ms = Except.map (fun st => applyStore st a) (storeOf env ms) := by
  induction ms generalizing a with
  | nil => simp [applyModes, storeOf, Except.map, applyStore_id]
  | cons m ms2 ih =>
    rw [applyModes, applyMode_store1, storeOf]
    cases h1 : store1 env m with
    | error e => simp [Except.map]
    | ok st1 =>
      simp only [Except.map]
      rw [ih]
      cases h2 : storeOf env ms2 with
      | error e => simp [Except.map]
      | ok st2 => simp [Except.map, applyStore_comp]

/-- C8: for every terminal attribute state, the terminal-mode translation
with an empty mode list leaves the attributes unchanged; and whenever a mode
list applies successfully, applying the same list again to the result yields
the same attributes (idempotence). -/
theorem setModes_empty_and_idem (env : TtyEnv) (a : TermAttrs) :
    applyModes env a [] = Except.ok a ∧
    ∀ (ms : List (Nat × Nat)) (b : TermAttrs),
      applyModes env a ms = Except.ok b → applyModes env b ms = Except.ok b := by
  constructor
  · rfl
  · intro ms b h
    rw [applyModes_storeOf] at h ⊢
    cases hs : storeOf env ms with
    | error e =>
      rw [hs] at h
      simp [Except.map] at h
    | ok st =>
      rw [hs] at h
      simp only [Except.map] at h ⊢
      injection h with h2
      subst h2
      rw [applyStore_idem]

/-- A concrete translation environment: mode code `53` is the `ECHO` flag
bit (value 8) in the local-flags word, mode code `1` is the `VINTR`
control-character slot (index 0), everything else is unknown. -/
def ttyEnvW : TtyEnv :=
  { modeTable := fun n =>
      if n = 53 then some (TtyModeEntry.flagBit FlagField.lflag "ECHO")
      else if n = 1 then some (TtyModeEntry.ccChar "VINTR")
      else none
    ttyAttr := fun s =>
      if s = "ECHO" then some 8 else if s = "VINTR" then some 0 else none
    baud := fun _ => none }

/-- A concrete starting terminal attribute state. -/
def attrsW : TermAttrs := ⟨1, 2, 4, 15, 0, 0, [1, 2]⟩

/-- `attrsW` after disabling echo and setting the `VINTR` character to 3. -/
def attrsW2 : TermAttrs := ⟨1, 2, 4, 7, 0, 0, [3, 2]⟩

/-- Witness for C8: in the concrete environment, the empty mode list leaves
`attrsW` unchanged, and the list "echo off, `VINTR` = 3, unknown mode 99"
maps `attrsW` to `attrsW2` and maps `attrsW2` to itself. -/
theorem setModes_empty_and_idem_witness :
    applyModes ttyEnvW attrsW [] = Except.ok attrsW ∧
    applyModes ttyEnvW attrsW [(53, 0), (1, 3), (99, 1)] = Except.ok attrsW2 ∧
    applyModes ttyEnvW attrsW2 [(53, 0), (1, 3), (99, 1)] = Except.ok attrsW2 :=
  ⟨(setModes_empty_and_idem ttyEnvW attrsW).1,
   rfl,
   (setModes_empty_and_idem ttyEnvW attrsW).2 [(53, 0), (1, 3), (99, 1)] attrsW2 rfl⟩
